import Mathlib

/-!
Verification of the `texttosql` chat client (`frontend/src/App.tsx`)
against its design specification.

The frontend is the only component whose source is available; every
definition below is a shallow embedding of `App.tsx`.  JSON values are
modelled by an inductive type, `JSON.stringify` by a structural
serializer (indentation of `JSON.stringify(x, null, 2)` is not
reproduced; no property depends on whitespace), and the React component
by an explicit state record with a step function over UI events.
-/

/-- JSON values as produced by `response.json()` / consumed by
`JSON.stringify`.  Numbers are modelled as integers; no claim depends on
non-integral numerics. -/
inductive Json where
  | null
  | bool (b : Bool)
  | num (n : Int)
  | str (s : String)
  | arr (elems : List Json)
  | obj (fields : List (String × Json))

mutual

/-- Structural equality of JSON values (JavaScript `===` on the leaf
shapes the client compares, extended structurally). -/
def Json.beq : Json → Json → Bool
  | .null, .null => true
  | .bool a, .bool b => a == b
  | .num a, .num b => a == b
  | .str a, .str b => a == b
  | .arr xs, .arr ys => Json.beqElems xs ys
  | .obj fs, .obj gs => Json.beqFields fs gs
  | _, _ => false

/-- Elementwise equality of JSON arrays. -/
def Json.beqElems : List Json → List Json → Bool
  | [], [] => true
  | x :: xs, y :: ys => Json.beq x y && Json.beqElems xs ys
  | _, _ => false

/-- Fieldwise equality of JSON objects. -/
def Json.beqFields : List (String × Json) → List (String × Json) → Bool
  | [], [] => true
  | (k, v) :: fs, (l, w) :: gs => k == l && Json.beq v w && Json.beqFields fs gs
  | _, _ => false

end

instance : BEq Json := ⟨Json.beq⟩

/-- Comparison with `==` on string-shaped JSON values is string equality. -/
lemma json_beq_str (a b : String) : (Json.str a == Json.str b) = (a == b) := rfl

/-- Comparison with `==` on optional JSON values compares the wrapped values. -/
lemma json_beq_some (a b : Json) :
    (some a == some b) = (a == b) := rfl

mutual

/-- Serialization of a JSON value, embedding `JSON.stringify`
(modulo whitespace/indentation, which no claim depends on). -/
def Json.stringify : Json → String
  | .null => "null"
  | .bool true => "true"
  | .bool false => "false"
  | .num n => toString n
  | .str s => "\"" ++ s ++ "\""
  | .arr elems => "[" ++ Json.stringifyElems elems ++ "]"
  | .obj fields => "\x7b" ++ Json.stringifyFields fields ++ "\x7d"

/-- Comma-separated serialization of array elements. -/
def Json.stringifyElems : List Json → String
  | [] => ""
  | [x] => Json.stringify x
  | x :: xs => Json.stringify x ++ "," ++ Json.stringifyElems xs

/-- Comma-separated serialization of object fields. -/
def Json.stringifyFields : List (String × Json) → String
  | [] => ""
  | [(k, v)] => "\"" ++ k ++ "\":" ++ Json.stringify v
  | (k, v) :: kvs =>
      "\"" ++ k ++ "\":" ++ Json.stringify v ++ "," ++ Json.stringifyFields kvs

end

/-- Property access `x.f` on a JSON value: a field lookup on objects,
`undefined` (here `none`) on everything else.  Mirrors JavaScript member
access on non-null values. -/
def Json.getField : Json → String → Option Json
  | .obj fields, k => fields.lookup k
  | _, _ => none

/-- Whether a JSON value is an object (the spec's envelope shape requires
`payload` and the envelope itself to be objects). -/
def Json.isObj : Json → Bool
  | .obj _ => true
  | _ => false

/-- JavaScript truthiness of a JSON value (the `data.payload?.text`
condition in `App.tsx`): `null`, `false`, `0` and `""` are falsy. -/
def Json.truthy : Json → Bool
  | .null => false
  | .bool b => b
  | .num n => n != 0
  | .str s => s != ""
  | .arr _ => true
  | .obj _ => true

/-- Truthiness of a possibly-`undefined` value (`none` = `undefined`,
which is falsy). -/
def optTruthy : Option Json → Bool
  | none => false
  | some j => j.truthy

/-- The optional chain `data.payload?.text` from `App.tsx`. -/
def chatPayloadText (data : Json) : Option Json :=
  (data.getField "payload").bind (fun p => p.getField "text")

/-- How a truthy JSON value assigned to `botText` renders as message
text: strings render as themselves; other truthy values are coerced for
display (no claim exercises a non-string here). -/
def jsDisplay : Json → String
  | .str s => s
  | .num n => toString n
  | .bool b => toString b
  | j => Json.stringify j

/-- The result of `JSON.stringify` applied to a possibly-`undefined` value inside a
template literal: `undefined` interpolates as the text `undefined`. -/
def stringifyOrUndefined : Option Json → String
  | none => "undefined"
  | some j => j.stringify

/-- The runtime message of the TypeError raised by `data.payload.result`
when `payload` is `null`/`undefined` (engine-dependent wording; only the
`Error:` framing matters to any claim). -/
def typeErrorMessage : String :=
  "Cannot read properties of undefined (reading result)"

/-- The response-classification logic of `handleSendMessage`
(`App.tsx` lines 63-72): computes the bot message text from the parsed
response body, or `none` when evaluating it throws (a `null` body makes
`data.type` throw; a `null`/absent `payload` on the `result` branch makes
`data.payload.result` throw). -/
def botTextFor (data : Json) : Option String :=
  match data with
  | .null => none
  | _ =>
    if data.getField "type" == some (.str "chat_reply")
        && optTruthy (chatPayloadText data) then
      match chatPayloadText data with
      | some t => some (jsDisplay t)
      | none => some ""
    else if data.getField "type" == some (.str "result") then
      match data.getField "payload" with
      | none => none
      | some .null => none
      | some p => some ("SQL Query Result:\n" ++ stringifyOrUndefined (p.getField "result"))
    else
      some (Json.stringify data)

/-- The two recognized outbound envelope types, as the client's branch
conditions test them: `chat_reply` with a truthy `payload.text`, or
`result`. -/
def recognizedOutbound (data : Json) : Bool :=
  (data.getField "type" == some (.str "chat_reply")
      && optTruthy (chatPayloadText data))
  || data.getField "type" == some (.str "result")

example : botTextFor (.obj [("type", .str "weird")]) =
    some "\x7b\"type\":\"weird\"\x7d" := by rfl

example : botTextFor (.obj [("type", .str "chat_reply"),
    ("payload", .obj [("text", .str "hi")])]) = some "hi" := by rfl

/-! ## The client state machine (`App.tsx`) -/

/-- JavaScript's `String.prototype.trim`: drop leading and trailing
whitespace (embedded over the character list so that concrete instances
evaluate). -/
def jsTrim (s : String) : String :=
  .mk (((s.data.dropWhile Char.isWhitespace).reverse.dropWhile
    Char.isWhitespace).reverse)

/-- The `sender` discriminator of the `Message` interface. -/
inductive Sender where
  | user
  | bot
deriving DecidableEq, Repr

/-- The `Message` interface of `App.tsx`: `id` and `timestamp` are
`Date.now()` values, modelled as naturals. -/
structure Message where
  id : Nat
  text : String
  sender : Sender
  timestamp : Nat
deriving DecidableEq, Repr

/-- The component state held in React `useState` hooks:
`messages`, `inputText`, `sessionId`, `isLoading`. -/
structure ClientState where
  messages : List Message
  inputText : String
  sessionId : String
  isLoading : Bool
deriving DecidableEq, Repr

/-- The initial hook values: empty messages, empty input, empty session
id (the mount effect mints the real one), not loading. -/
def initialState : ClientState :=
  { messages := [], inputText := "", sessionId := "", isLoading := false }

/-- The session-id minting expression
`session-${Date.now()}-${Math.random().toString(36).substr(2, 9)}`,
with the clock reading and the random suffix as parameters. -/
def mintSessionId (now : Nat) (rand : String) : String :=
  "session-" ++ toString now ++ "-" ++ rand

/-- The body of the `POST /chat` fetch: a `user_message` envelope with
`id`, `session_id` and `payload.text`. -/
structure ChatRequest where
  type : String
  id : String
  session_id : String
  text : String
deriving DecidableEq, Repr

/-- The JSON object the client serializes as the `POST /chat` body. -/
def ChatRequest.toJson (r : ChatRequest) : Json :=
  .obj [("type", .str r.type), ("id", .str r.id),
        ("session_id", .str r.session_id),
        ("payload", .obj [("text", .str r.text)])]

/-- A network call the client can issue.  `App.tsx` only ever issues the
chat POST; `deleteSession` stands for the backend's
`DELETE /session/{session_id}` endpoint, which exists in the API surface
but which this client never calls. -/
inductive OutboundCall where
  | chat (r : ChatRequest)
  | deleteSession (session_id : String)
deriving DecidableEq, Repr

/-- Completion of the awaited fetch, as the `try`/`catch` distinguishes
it: `ok` is a 2xx response whose body parsed to `data`; `httpError` is a
non-ok status (the client throws `HTTP error! status: ...`); `failure`
is a network or JSON-parse rejection (`some m` an `Error` with message
`m`, `none` a non-`Error` throw). -/
inductive FetchOutcome where
  | ok (data : Json)
  | httpError (status : Nat)
  | failure (msg : Option String)

/-- Whether an outcome takes the `catch` path (non-ok status, fetch/parse
rejection, or a throw while reading `data`). -/
def FetchOutcome.isError : FetchOutcome → Bool
  | .ok data => (botTextFor data).isNone
  | .httpError _ => true
  | .failure _ => true

/-- The text of the bot message appended when the fetch completes:
the classified response text on success, or the `catch` branch's
`Error: ...` framing. -/
def botMessageText (o : FetchOutcome) : String :=
  match o with
  | .ok data =>
      match botTextFor data with
      | some t => t
      | none => "Error: " ++ typeErrorMessage
  | .httpError status => "Error: HTTP error! status: " ++ toString status
  | .failure (some m) => "Error: " ++ m
  | .failure none => "Error: Failed to connect to bot."

/-- UI events driving the component: the mount effect (`init`), typing
into the input (`setInput`), submitting the form (`sendStart`), the
awaited fetch completing (`sendComplete`), and the CLEAR button
(`clear`).  Clock readings and random suffixes are event parameters. -/
inductive Event where
  | init (now : Nat) (rand : String)
  | setInput (text : String)
  | sendStart (now : Nat)
  | sendComplete (o : FetchOutcome) (now : Nat)
  | clear (now : Nat) (rand : String)

/-- One event's effect on the component state, paired with the network
call it issues (if any), transcribing `App.tsx`:
* `init`: the mount effect sets a freshly minted session id;
* `setInput`: the input `onChange` handler;
* `sendStart`: `handleSendMessage` up to the `await` — guarded by
  `if (!inputText.trim() || isLoading) return`, it appends the user
  message, clears the input, sets `isLoading`, and issues the POST;
* `sendComplete`: the rest of `handleSendMessage` — appends one bot
  message (`catch` framing on error) and, in `finally`, clears
  `isLoading`;
* `clear`: `clearChat` — empties `messages` and mints a new session id;
  it issues no network call and leaves `inputText`/`isLoading` alone. -/
def step (s : ClientState) : Event → ClientState × Option OutboundCall
  | .init now rand =>
      ({ s with sessionId := mintSessionId now rand }, none)
  | .setInput text =>
      ({ s with inputText := text }, none)
  | .sendStart now =>
      if jsTrim s.inputText == "" || s.isLoading then (s, none)
      else
        ({ s with
            messages := s.messages ++
              [{ id := now, text := s.inputText, sender := .user, timestamp := now }],
            inputText := "",
            isLoading := true },
         some (.chat { type := "user_message", id := "msg-" ++ toString now,
                       session_id := s.sessionId, text := s.inputText }))
  | .sendComplete o now =>
      ({ s with
          messages := s.messages ++
            [{ id := now + (if o.isError then 2 else 1),
               text := botMessageText o, sender := .bot, timestamp := now }],
          isLoading := false },
       none)
  | .clear now rand =>
      ({ s with messages := [], sessionId := mintSessionId now rand }, none)

/-- Run a sequence of events, collecting the network calls issued. -/
def run (s : ClientState) : List Event → ClientState × List OutboundCall
  | [] => (s, [])
  | e :: es =>
      let (s1, c) := step s e
      let (s2, cs) := run s1 es
      (s2, c.toList ++ cs)

/-- The chat POSTs among a list of issued calls. -/
def chatRequests (calls : List OutboundCall) : List ChatRequest :=
  calls.filterMap (fun c => match c with | .chat r => some r | _ => none)

/-- What the JSX renders from the state: the loading indicator is shown
iff `isLoading`; the input is `disabled={isLoading}`; the send button is
`disabled={isLoading || !inputText.trim()}`; the messages are mapped in
list order; the welcome text shows iff `messages` is empty. -/
structure View where
  showLoading : Bool
  inputDisabled : Bool
  sendDisabled : Bool
  rendered : List Message
  showWelcome : Bool
deriving DecidableEq, Repr

/-- The render function of the `App` component (its returned JSX, as a
function of the state). -/
def render (s : ClientState) : View :=
  { showLoading := s.isLoading
    inputDisabled := s.isLoading
    sendDisabled := s.isLoading || jsTrim s.inputText == ""
    rendered := s.messages
    showWelcome := s.messages.isEmpty }

/-! ## The backend Protocol Codec's decode, modelled from the spec -/

/-- The codec's decode failure. -/
inductive CodecError where
  | malformedRequest
deriving DecidableEq, Repr

/-- A successfully decoded inbound `user_message`. -/
structure DecodedUserMessage where
  session_id : Json
  text : String

/-- Modelled from the spec: the backend's Protocol Codec (spec §4.2) is
not among the available sources (only the frontend is).  Decoding an
inbound envelope fails with `MalformedRequest` if `type` is
missing/unrecognized (only `"user_message"` is recognized), `session_id`
is absent, or `payload.text` is not a non-empty string after trimming. -/
def decodeInbound (e : Json) : Except CodecError DecodedUserMessage :=
  match e.getField "type" with
  | some (.str "user_message") =>
    match e.getField "session_id" with
    | some sid =>
      match (e.getField "payload").bind (fun p => p.getField "text") with
      | some (.str t) =>
          if jsTrim t == "" then .error .malformedRequest else .ok ⟨sid, t⟩
      | _ => .error .malformedRequest
    | none => .error .malformedRequest
  | _ => .error .malformedRequest

/-! ## Trace predicates and history shapes -/

/-- Events that mint a fresh session id: the mount effect and the CLEAR
button. -/
def Event.mints : Event → Bool
  | .init _ _ => true
  | .clear _ _ => true
  | _ => false

/-- Events other than the CLEAR button. -/
def Event.isClear : Event → Bool
  | .clear _ _ => true
  | _ => false

/-- The number of fetch completions in a trace. -/
def numCompletions : List Event → Nat
  | [] => 0
  | .sendComplete _ _ :: es => numCompletions es + 1
  | _ :: es => numCompletions es

/-- Guard for well-formed traces: a fetch completion may only occur
while a request is outstanding (`isLoading`), since each completion is
the continuation of a previously issued fetch. -/
def wfGuard (s : ClientState) : Event → Bool
  | .sendComplete _ _ => s.isLoading
  | _ => true

/-- Well-formed traces: every fetch completion happens while a request
is outstanding. -/
def wfRun (s : ClientState) : List Event → Bool
  | [] => true
  | e :: es => wfGuard s e && wfRun (step s e).1 es

/-- Guard for calm traces: well-formedness plus — the CLEAR button is
only pressed while no request is in flight (the button is not disabled
during loading, so general traces need not satisfy this). -/
def calmGuard (s : ClientState) : Event → Bool
  | .sendComplete _ _ => s.isLoading
  | .clear _ _ => !s.isLoading
  | _ => true

/-- Traces that are well-formed and never press CLEAR mid-flight. -/
def calmRun (s : ClientState) : List Event → Bool
  | [] => true
  | e :: es => calmGuard s e && calmRun (step s e).1 es

/-- The senders of a message list, in order. -/
def sendersOf (ms : List Message) : List Sender :=
  ms.map Message.sender

/-- Sender sequences of the form user, bot, user, bot, ..., user, bot
(possibly empty). -/
def chatShape : List Sender → Bool
  | [] => true
  | .user :: .bot :: rest => chatShape rest
  | _ => false

/-- Sender sequences of the form user, bot, ..., user, bot, user: a
completed alternation followed by the one user message whose reply is
still in flight. -/
def midShape : List Sender → Bool
  | [.user] => true
  | .user :: .bot :: rest => midShape rest
  | _ => false

/-- The sender sequence user, bot repeated `n` times. -/
def ubList : Nat → List Sender
  | 0 => []
  | n + 1 => .user :: .bot :: ubList n

/-- The history-shape invariant: a strict user/bot alternation, with a
trailing unanswered user message exactly while a request is in flight. -/
def historyShape (s : ClientState) : Bool :=
  if s.isLoading then midShape (sendersOf s.messages)
  else chatShape (sendersOf s.messages)

/-! ## Theorems -/

/-- C1: every `/chat` response envelope (a JSON object) whose type does
not match one of the two recognized outbound forms — `chat_reply` with a
(truthy) text payload, or `result` — is displayed in full as raw
serialized JSON by the client, not rejected and not dropped. -/
theorem unrecognized_envelope_displayed_as_raw_json (data : Json)
    (hobj : data.isObj = true)
    (hrec : recognizedOutbound data = false) :
    botTextFor data = some (Json.stringify data) := by
  cases data <;> simp_all [Json.isObj, recognizedOutbound, botTextFor]

theorem unrecognized_envelope_displayed_as_raw_json_witness :
    botTextFor (Json.obj [("type", Json.str "status"), ("id", Json.str "m1")]) =
      some (Json.stringify (Json.obj [("type", Json.str "status"), ("id", Json.str "m1")])) :=
  unrecognized_envelope_displayed_as_raw_json _ rfl rfl

/-- The `chat_reply` envelope with an empty-string `text` used to refute
C3: `payload.text` is the string `""`, which is falsy in JavaScript. -/
def emptyTextReply : Json :=
  .obj [("type", .str "chat_reply"), ("id", .str "m1"),
        ("session_id", .str "s1"), ("payload", .obj [("text", .str "")])]

/-- C3 (counterexample): the claim says a `chat_reply` whose payload has
a string `text` field is displayed as that text for every string value
including the empty string; but on `emptyTextReply` (text `""`, falsy)
the client does not display `""` — it falls through to the raw-JSON
branch. -/
theorem chat_reply_empty_text_falls_through :
    chatPayloadText emptyTextReply = some (Json.str "") ∧
    botTextFor emptyTextReply ≠ some "" ∧
    botTextFor emptyTextReply = some (Json.stringify emptyTextReply) :=
  ⟨rfl, by decide, rfl⟩

/-- C3 (amended): for every `chat_reply` envelope whose payload carries
a non-empty string `text`, the client displays that text as the bot
message; an empty-string `text` instead falls back to raw-JSON display
(as in the counterexample above). -/
theorem chat_reply_nonempty_text_displayed (data : Json) (t : String)
    (hty : data.getField "type" = some (.str "chat_reply"))
    (htext : chatPayloadText data = some (.str t))
    (hne : t ≠ "") :
    botTextFor data = some t := by
  cases data <;>
    simp_all [Json.getField, botTextFor, optTruthy, Json.truthy, jsDisplay,
      json_beq_str, Json.beq]

theorem chat_reply_nonempty_text_displayed_witness :
    botTextFor (Json.obj [("type", Json.str "chat_reply"),
      ("payload", Json.obj [("text", Json.str "hello")])]) = some "hello" :=
  chat_reply_nonempty_text_displayed _ "hello" rfl rfl (by decide)

/-- C6: for every `/chat` response envelope of type `result` (with the
envelope's `payload` an object, per the wire shape), the displayed bot
message is the constant framing `SQL Query Result:` followed by the
serialization of the payload's `result` field alone — no other part of
the envelope or payload enters the display. -/
theorem result_envelope_displays_result_field (data p : Json)
    (hty : data.getField "type" = some (.str "result"))
    (hp : data.getField "payload" = some p)
    (hpo : p.isObj = true) :
    botTextFor data =
      some ("SQL Query Result:\n" ++ stringifyOrUndefined (p.getField "result")) := by
  cases data <;>
    simp_all [Json.getField, botTextFor, optTruthy, Json.truthy,
      json_beq_str, Json.beq, chatPayloadText]
  cases p <;> simp_all [Json.isObj]

theorem result_envelope_displays_result_field_witness :
    botTextFor (Json.obj [("type", Json.str "result"),
      ("payload", Json.obj [("result", Json.arr [Json.obj [("count", Json.num 42)]])])]) =
      some ("SQL Query Result:\n" ++
        stringifyOrUndefined (some (Json.arr [Json.obj [("count", Json.num 42)]]))) :=
  result_envelope_displays_result_field
    (Json.obj [("type", Json.str "result"),
      ("payload", Json.obj [("result", Json.arr [Json.obj [("count", Json.num 42)]])])])
    (Json.obj [("result", Json.arr [Json.obj [("count", Json.num 42)]])])
    rfl rfl rfl

/-- C2: whenever the submission guard passes (non-blank trimmed input,
no request in flight), the body the client POSTs to `/chat` is a
`user_message` envelope carrying the current `session_id` and a
`payload.text` that is non-empty after trimming — so the spec-modelled
codec's `MalformedRequest` branch is unreachable on client-produced
requests. -/
theorem client_chat_requests_never_malformed (s : ClientState) (now : Nat)
    (hne : jsTrim s.inputText ≠ "")
    (hload : s.isLoading = false) :
    ∃ r : ChatRequest,
      (step s (.sendStart now)).2 = some (.chat r) ∧
      r.type = "user_message" ∧
      r.session_id = s.sessionId ∧
      jsTrim r.text ≠ "" ∧
      decodeInbound r.toJson ≠ .error CodecError.malformedRequest := by
  refine ⟨{ type := "user_message", id := "msg-" ++ toString now,
            session_id := s.sessionId, text := s.inputText }, ?_, rfl, rfl, hne, ?_⟩
  · simp [step, hload, hne]
  · simp [decodeInbound, ChatRequest.toJson, Json.getField, List.lookup, hne]

/-- A concrete idle state with pending input, used as the C2 witness
input. -/
def typedState : ClientState :=
  { messages := [], inputText := "hello", sessionId := "session-1-aaa",
    isLoading := false }

theorem client_chat_requests_never_malformed_witness :
    jsTrim typedState.inputText ≠ "" ∧
    ∃ r : ChatRequest,
      (step typedState (.sendStart 7)).2 = some (.chat r) ∧
      r.type = "user_message" ∧
      r.session_id = typedState.sessionId ∧
      jsTrim r.text ≠ "" ∧
      decodeInbound r.toJson ≠ .error CodecError.malformedRequest :=
  ⟨by decide, client_chat_requests_never_malformed typedState 7 (by decide) rfl⟩

/-- The concrete pre-clear state used to refute C5. -/
def preClearState : ClientState :=
  { messages := [{ id := 1, text := "hi", sender := .user, timestamp := 1 },
                 { id := 2, text := "hello", sender := .bot, timestamp := 2 }],
    inputText := "", sessionId := "session-1-abcdefghi", isLoading := false }

/-- C5 (counterexample): the claim says the CLEAR button makes the
client issue a server request that removes the current session
(`DELETE /session/{session_id}` invoking the store's `clear`); but
`clearChat` issues no network call at all — at the concrete state below,
stepping on the clear event emits nothing. -/
theorem clear_button_issues_no_server_call :
    (step preClearState (.clear 9 "zzzzzzzzz")).2 = none ∧
    (run preClearState [.clear 9 "zzzzzzzzz"]).2 = [] :=
  ⟨rfl, rfl⟩

/-- C5 (amended): the CLEAR button acts purely client-side — it empties
the local message list and mints a fresh session id, leaving input and
loading state alone, and issues no request to the server; the abandoned
server-side session is only ever removed by the backend's lifecycle
sweeper, not by this client. -/
theorem clear_button_is_client_side_only (s : ClientState) (now : Nat) (rand : String) :
    (step s (.clear now rand)).2 = none ∧
    ((step s (.clear now rand)).1).messages = [] ∧
    ((step s (.clear now rand)).1).sessionId = mintSessionId now rand ∧
    ((step s (.clear now rand)).1).inputText = s.inputText ∧
    ((step s (.clear now rand)).1).isLoading = s.isLoading := by
  simp [step]

/-- C7: while a request is in flight the client shows the loading
indicator and disables both the message input and the send button; when
no request is in flight the input is enabled (user input is collected)
and the accumulated messages are rendered in list order. -/
theorem loading_disables_input_and_idle_renders (s : ClientState) :
    (s.isLoading = true →
        (render s).showLoading = true ∧ (render s).inputDisabled = true ∧
        (render s).sendDisabled = true) ∧
    (s.isLoading = false →
        (render s).showLoading = false ∧ (render s).inputDisabled = false ∧
        (render s).rendered = s.messages) := by
  constructor <;> intro h <;> simp [render, h]

theorem loading_disables_input_and_idle_renders_witness :
    (render { messages := [], inputText := "", sessionId := "s",
              isLoading := true }).inputDisabled = true ∧
    (render { messages := [], inputText := "", sessionId := "s",
              isLoading := false }).inputDisabled = false :=
  ⟨((loading_disables_input_and_idle_renders
      { messages := [], inputText := "", sessionId := "s", isLoading := true }).1 rfl).2.1,
   ((loading_disables_input_and_idle_renders
      { messages := [], inputText := "", sessionId := "s", isLoading := false }).2 rfl).2.1⟩

/-- Between minting events (mount effect, CLEAR), running any events
leaves the session id unchanged and stamps it on every chat request
issued. -/
lemma run_preserves_sessionId (es : List Event) :
    ∀ s : ClientState, (es.all fun e => !e.mints) = true →
      (run s es).1.sessionId = s.sessionId ∧
      ((chatRequests (run s es).2).all
        fun r => r.session_id == s.sessionId) = true := by
  induction es with
  | nil => intro s _; simp [run, chatRequests]
  | cons e es ih =>
    intro s h
    rw [List.all_cons] at h
    obtain ⟨he, hes⟩ := Bool.and_eq_true_iff.mp h
    cases e with
    | init now rand => simp [Event.mints] at he
    | clear now rand => simp [Event.mints] at he
    | setInput t =>
        have := ih { s with inputText := t } hes
        simpa [run, step, chatRequests] using this
    | sendComplete o now =>
        have := ih { s with
          messages := s.messages ++
            [{ id := now + (if o.isError then 2 else 1),
               text := botMessageText o, sender := .bot, timestamp := now }],
          isLoading := false } hes
        simpa [run, step, chatRequests] using this
    | sendStart now =>
        by_cases hg : (jsTrim s.inputText == "" || s.isLoading) = true
        · have := ih s hes
          simpa [run, step, hg, chatRequests] using this
        · have := ih { s with
            messages := s.messages ++
              [{ id := now, text := s.inputText, sender := .user, timestamp := now }],
            inputText := "", isLoading := true } hes
          simp only [run, step, hg, if_false, Bool.false_eq_true]
          simp [chatRequests] at this ⊢
          exact this

/-- C4: the session identifier is an opaque string minted by the client
alone — the mount effect and the CLEAR button each set it to a freshly
minted `session-...` value, and no other event (in particular no server
response) changes it; hence every `/chat` request issued between two
consecutive minting events carries the same `session_id`, namely the one
current at the start of that span. -/
theorem session_id_client_minted_and_stable :
    (∀ s : ClientState, ∀ now : Nat, ∀ rand : String,
        ((step s (.init now rand)).1).sessionId = mintSessionId now rand) ∧
    (∀ s : ClientState, ∀ now : Nat, ∀ rand : String,
        ((step s (.clear now rand)).1).sessionId = mintSessionId now rand) ∧
    (∀ s : ClientState, ∀ es : List Event, (es.all fun e => !e.mints) = true →
        (run s es).1.sessionId = s.sessionId ∧
        ((chatRequests (run s es).2).all
          fun r => r.session_id == s.sessionId) = true) := by
  refine ⟨fun s now rand => rfl, fun s now rand => rfl, fun s es h => ?_⟩
  exact run_preserves_sessionId es s h

/-- A concrete mint-free trace: type and send twice, each send
completing, with no clear in between. -/
def twoSendTrace : List Event :=
  [.setInput "first question", .sendStart 10,
   .sendComplete (.ok (.obj [("type", .str "chat_reply"),
     ("payload", .obj [("text", .str "hi")])])) 11,
   .setInput "second question", .sendStart 12,
   .sendComplete (.httpError 500) 13]

theorem session_id_client_minted_and_stable_witness :
    ((chatRequests (run typedState twoSendTrace).2).all
      fun r => r.session_id == typedState.sessionId) = true :=
  (session_id_client_minted_and_stable.2.2 typedState twoSendTrace (by decide)).2

/-- Every outcome that takes the `catch` path yields a bot text that
begins with `Error:`. -/
lemma error_outcome_text_prefixed (o : FetchOutcome) (h : o.isError = true) :
    ∃ rest, botMessageText o = "Error:" ++ rest := by
  cases o with
  | ok data =>
      rw [FetchOutcome.isError, Option.isNone_iff_eq_none] at h
      refine ⟨" " ++ typeErrorMessage, ?_⟩
      rw [botMessageText, h, ← String.append_assoc]; rfl
  | httpError status =>
      refine ⟨" HTTP error! status: " ++ toString status, ?_⟩
      rw [botMessageText, ← String.append_assoc]; rfl
  | failure msg =>
      cases msg with
      | some m =>
          refine ⟨" " ++ m, ?_⟩
          rw [botMessageText, ← String.append_assoc]; rfl
      | none => exact ⟨" Failed to connect to bot.", rfl⟩

/-- C8: any send that passes the submission guard, once its fetch
completes — with a parsed 2xx response, a non-2xx status, a network or
JSON-parse failure, or a throw while reading the body — leaves
`isLoading` false (the `finally` branch) and has appended exactly two
messages: the user message and exactly one bot message, the latter
beginning with `Error:` on every non-success outcome. -/
theorem guarded_send_settles_with_one_bot_message
    (s : ClientState) (now later : Nat) (o : FetchOutcome)
    (hne : jsTrim s.inputText ≠ "")
    (hload : s.isLoading = false) :
    (run s [.sendStart now, .sendComplete o later]).1.isLoading = false ∧
    ∃ u b : Message,
      (run s [.sendStart now, .sendComplete o later]).1.messages =
        s.messages ++ [u, b] ∧
      u.sender = .user ∧ b.sender = .bot ∧ b.text = botMessageText o ∧
      (o.isError = true → ∃ rest, b.text = "Error:" ++ rest) := by
  refine ⟨?_, { id := now, text := s.inputText, sender := .user, timestamp := now },
          { id := later + (if o.isError then 2 else 1),
            text := botMessageText o, sender := .bot, timestamp := later },
          ?_, rfl, rfl, rfl, fun h => error_outcome_text_prefixed o h⟩
  · simp [run, step, hne, hload]
  · simp [run, step, hne, hload]

theorem guarded_send_settles_with_one_bot_message_witness :
    (run typedState [.sendStart 7, .sendComplete (.httpError 500) 8]).1.isLoading
      = false ∧
    ∃ u b : Message,
      (run typedState [.sendStart 7, .sendComplete (.httpError 500) 8]).1.messages =
        typedState.messages ++ [u, b] ∧
      u.sender = .user ∧ b.sender = .bot ∧
      b.text = botMessageText (.httpError 500) ∧
      ((FetchOutcome.httpError 500).isError = true →
        ∃ rest, b.text = "Error:" ++ rest) :=
  guarded_send_settles_with_one_bot_message typedState 7 8 (.httpError 500)
    (by decide) rfl

/-- Under well-formed traces, the chat requests issued balance the
completions plus the in-flight indicator: starting from loading state
`b`, issued + b = completed + (loading at the end). -/
lemma run_flight_balance (es : List Event) :
    ∀ s : ClientState, wfRun s es = true →
      (chatRequests (run s es).2).length + (if s.isLoading then 1 else 0) =
        numCompletions es + (if (run s es).1.isLoading then 1 else 0) := by
  induction es with
  | nil => intro s _; simp [run, chatRequests, numCompletions]
  | cons e es ih =>
    intro s h
    rw [wfRun] at h
    obtain ⟨hg, hes⟩ := Bool.and_eq_true_iff.mp h
    cases e with
    | init now rand =>
        have hes' : wfRun { s with sessionId := mintSessionId now rand } es = true := by
          simpa [step] using hes
        have := ih _ hes'
        simp [run, step, chatRequests, numCompletions] at this ⊢
        omega
    | setInput t =>
        have hes' : wfRun { s with inputText := t } es = true := by
          simpa [step] using hes
        have := ih _ hes'
        simp [run, step, chatRequests, numCompletions] at this ⊢
        omega
    | clear now rand =>
        have hes' : wfRun { s with
            messages := ([] : List Message),
            sessionId := mintSessionId now rand } es = true := by
          simpa [step] using hes
        have := ih _ hes'
        simp [run, step, chatRequests, numCompletions] at this ⊢
        omega
    | sendComplete o now =>
        have hl : s.isLoading = true := by simpa [wfGuard] using hg
        have hes' : wfRun { s with
            messages := s.messages ++
              [{ id := now + (if o.isError then 2 else 1),
                 text := botMessageText o, sender := .bot, timestamp := now }],
            isLoading := false } es = true := by
          simpa [step] using hes
        have := ih _ hes'
        simp [run, step, chatRequests, numCompletions, hl] at this ⊢
        omega
    | sendStart now =>
        by_cases hcond : (jsTrim s.inputText == "" || s.isLoading) = true
        · have hes' : wfRun s es = true := by
            simpa [step, hcond] using hes
          have := ih s hes'
          simp [run, step, hcond, chatRequests, numCompletions] at this ⊢
          omega
        · have hcf : (jsTrim s.inputText == "" || s.isLoading) = false := by
            revert hcond; cases hb : (jsTrim s.inputText == "" || s.isLoading) <;>
              simp
          have hl : s.isLoading = false := (Bool.or_eq_false_iff.mp hcf).2
          have hne : ¬ jsTrim s.inputText = "" := by
            simpa using (Bool.or_eq_false_iff.mp hcf).1
          have hes' : wfRun { s with
              messages := s.messages ++
                [{ id := now, text := s.inputText, sender := .user,
                   timestamp := now }],
              inputText := "", isLoading := true } es = true := by
            simpa [step, hcf] using hes
          have := ih _ hes'
          simp [run, step, hcf, hne, chatRequests, numCompletions, hl] at this ⊢
          omega

/-- C9: the client has at most one `/chat` request in flight.  While
`isLoading` is true, `handleSendMessage` returns without sending (state
unchanged, nothing issued) and the input and send button are disabled;
and along any well-formed trace starting idle, the number of chat
requests issued equals the number of completions plus the in-flight
indicator — so requests issued and not yet completed never exceed one. -/
theorem at_most_one_request_in_flight :
    (∀ s : ClientState, ∀ now : Nat, s.isLoading = true →
        step s (.sendStart now) = (s, none)) ∧
    (∀ s : ClientState, s.isLoading = true →
        (render s).inputDisabled = true ∧ (render s).sendDisabled = true) ∧
    (∀ s : ClientState, ∀ es : List Event,
        wfRun s es = true → s.isLoading = false →
        (chatRequests (run s es).2).length =
          numCompletions es + (if (run s es).1.isLoading then 1 else 0)) := by
  refine ⟨fun s now h => by simp [step, h], fun s h => by simp [render, h],
    fun s es hwf hidle => ?_⟩
  have := run_flight_balance es s hwf
  rw [hidle] at this
  simpa using this

theorem at_most_one_request_in_flight_witness :
    (chatRequests (run typedState twoSendTrace).2).length =
      numCompletions twoSendTrace +
        (if (run typedState twoSendTrace).1.isLoading then 1 else 0) :=
  at_most_one_request_in_flight.2.2 typedState twoSendTrace (by decide) rfl

/-- Appending a user sender to a completed alternation yields an
in-flight alternation. -/
lemma chatShape_append_user :
    ∀ ss, chatShape ss = true → midShape (ss ++ [Sender.user]) = true := by
  intro ss h
  induction ss using chatShape.induct <;> simp_all [chatShape, midShape]

/-- Appending a bot sender to an in-flight alternation completes it. -/
lemma midShape_append_bot :
    ∀ ss, midShape ss = true → chatShape (ss ++ [Sender.bot]) = true := by
  intro ss h
  induction ss using midShape.induct <;> simp_all [chatShape, midShape]

/-- A completed alternation is literally user, bot repeated `n` times,
and so has even length. -/
lemma chatShape_eq_ubList :
    ∀ ss, chatShape ss = true → ∃ n, ss = ubList n ∧ ss.length = 2 * n := by
  intro ss h
  induction ss using chatShape.induct with
  | case1 => exact ⟨0, rfl, rfl⟩
  | case2 rest ih =>
      obtain ⟨n, hn, hl⟩ := ih (by simpa [chatShape] using h)
      exact ⟨n + 1, by simp [ubList, hn], by simp [hl]; omega⟩
  | case3 => simp_all [chatShape]

/-- Calm traces preserve the history-shape invariant. -/
lemma calm_preserves_historyShape (es : List Event) :
    ∀ s : ClientState, calmRun s es = true → historyShape s = true →
      historyShape (run s es).1 = true := by
  induction es with
  | nil => intro s _ h; simpa [run] using h
  | cons e es ih =>
    intro s hc h
    rw [calmRun] at hc
    obtain ⟨hg, hes⟩ := Bool.and_eq_true_iff.mp hc
    cases e with
    | init now rand =>
        have hes' : calmRun { s with sessionId := mintSessionId now rand } es = true := by
          simpa [step] using hes
        have h1 : historyShape { s with sessionId := mintSessionId now rand } = true := by
          simpa [historyShape, sendersOf] using h
        simpa [run, step] using ih _ hes' h1
    | setInput t =>
        have hes' : calmRun { s with inputText := t } es = true := by
          simpa [step] using hes
        have h1 : historyShape { s with inputText := t } = true := by
          simpa [historyShape, sendersOf] using h
        simpa [run, step] using ih _ hes' h1
    | clear now rand =>
        have hl : s.isLoading = false := by
          simpa [calmGuard] using hg
        have hes' : calmRun { s with
            messages := ([] : List Message),
            sessionId := mintSessionId now rand } es = true := by
          simpa [step] using hes
        have h1 : historyShape { s with
            messages := ([] : List Message),
            sessionId := mintSessionId now rand } = true := by
          simp [historyShape, hl, sendersOf, chatShape]
        simpa [run, step] using ih _ hes' h1
    | sendComplete o now =>
        have hl : s.isLoading = true := by simpa [calmGuard] using hg
        have hmid : midShape (sendersOf s.messages) = true := by
          simpa [historyShape, hl] using h
        have hes' : calmRun { s with
            messages := s.messages ++
              [{ id := now + (if o.isError then 2 else 1),
                 text := botMessageText o, sender := .bot, timestamp := now }],
            isLoading := false } es = true := by
          simpa [step] using hes
        have h1 : historyShape { s with
            messages := s.messages ++
              [{ id := now + (if o.isError then 2 else 1),
                 text := botMessageText o, sender := .bot, timestamp := now }],
            isLoading := false } = true := by
          simp only [historyShape, if_neg (by simp : ¬(false = true)), sendersOf,
            List.map_append]
          exact midShape_append_bot _ hmid
        simpa [run, step] using ih _ hes' h1
    | sendStart now =>
        by_cases hcond : (jsTrim s.inputText == "" || s.isLoading) = true
        · have hes' : calmRun s es = true := by
            simpa [step, hcond] using hes
          simpa [run, step, hcond] using ih s hes' h
        · have hcf : (jsTrim s.inputText == "" || s.isLoading) = false := by
            revert hcond; cases hb : (jsTrim s.inputText == "" || s.isLoading) <;>
              simp
          have hl : s.isLoading = false := (Bool.or_eq_false_iff.mp hcf).2
          have hne : ¬ jsTrim s.inputText = "" := by
            simpa using (Bool.or_eq_false_iff.mp hcf).1
          have hchat : chatShape (sendersOf s.messages) = true := by
            simpa [historyShape, hl] using h
          have hes' : calmRun { s with
              messages := s.messages ++
                [{ id := now, text := s.inputText, sender := .user,
                   timestamp := now }],
              inputText := "", isLoading := true } es = true := by
            simpa [step, hcf] using hes
          have h1 : historyShape { s with
              messages := s.messages ++
                [{ id := now, text := s.inputText, sender := .user,
                   timestamp := now }],
              inputText := "", isLoading := true } = true := by
            simp only [historyShape, if_pos rfl, sendersOf, List.map_append]
            exact chatShape_append_user _ hchat
          simpa [run, step, hcf, hne, hl] using ih _ hes' h1

/-- The envelope returned by the backend in the C10 counterexample
trace. -/
def helloReply : Json :=
  .obj [("type", .str "chat_reply"), ("payload", .obj [("text", .str "hello")])]

/-- A reachable trace in which the CLEAR button (which `App.tsx` does
not disable during loading) is pressed while a request is in flight:
mount, type, send, clear, and then the fetch completes. -/
def clearMidFlightTrace : List Event :=
  [.init 1 "aaaaaaaaa", .setInput "hi", .sendStart 2, .clear 3 "bbbbbbbbb",
   .sendComplete (.ok helloReply) 4]

/-- C10 (counterexample): the claim says that whenever no request is in
flight the messages list has even length and strictly alternates
starting with a user message; but after `clearMidFlightTrace` the client
is idle with a single bot message — odd length, starting with bot — and
the send completed mid-trace appended only the bot entry to the cleared
list, not a user/bot pair. -/
theorem clear_mid_flight_leaves_lone_bot_message :
    (run initialState clearMidFlightTrace).1.isLoading = false ∧
    sendersOf (run initialState clearMidFlightTrace).1.messages = [Sender.bot] ∧
    (run initialState clearMidFlightTrace).1.messages.length % 2 = 1 :=
  ⟨rfl, rfl, rfl⟩

/-- C10 (amended): between clear actions the messages list is
append-only, and each completed send appends exactly a user entry
followed by a bot entry; consequently, on every trace in which the CLEAR
button is only pressed while no request is in flight, the history-shape
invariant is preserved — so whenever no request is in flight the sender
sequence is exactly user, bot repeated `n` times (even length, strictly
alternating from the start).  The counterexample above shows the
claim's unconditional form fails when CLEAR is pressed mid-flight. -/
theorem idle_history_alternates_on_calm_traces :
    (∀ s : ClientState, ∀ e : Event, e.isClear = false →
        ∃ t, ((step s e).1).messages = s.messages ++ t) ∧
    (∀ s : ClientState, ∀ now later : Nat, ∀ o : FetchOutcome,
        jsTrim s.inputText ≠ "" → s.isLoading = false →
        ∃ u b : Message,
          (run s [.sendStart now, .sendComplete o later]).1.messages =
            s.messages ++ [u, b] ∧ u.sender = .user ∧ b.sender = .bot) ∧
    (∀ s : ClientState, ∀ es : List Event,
        calmRun s es = true → historyShape s = true →
        historyShape (run s es).1 = true) ∧
    (∀ ss : List Sender, chatShape ss = true →
        ∃ n, ss = ubList n ∧ ss.length = 2 * n) := by
  refine ⟨?_, ?_, fun s es hc h => calm_preserves_historyShape es s hc h,
    chatShape_eq_ubList⟩
  · intro s e he
    cases e with
    | init now rand => exact ⟨[], by simp [step]⟩
    | setInput t => exact ⟨[], by simp [step]⟩
    | clear now rand => simp [Event.isClear] at he
    | sendComplete o now =>
        exact ⟨[{ id := now + (if o.isError then 2 else 1),
                  text := botMessageText o, sender := .bot, timestamp := now }],
               by simp [step]⟩
    | sendStart now =>
        by_cases hcond : (jsTrim s.inputText == "" || s.isLoading) = true
        · exact ⟨[], by simp [step, hcond]⟩
        · exact ⟨[{ id := now, text := s.inputText, sender := .user,
                    timestamp := now }], by simp [step, hcond]⟩
  · intro s now later o hne hload
    exact ⟨{ id := now, text := s.inputText, sender := .user, timestamp := now },
           { id := later + (if o.isError then 2 else 1),
             text := botMessageText o, sender := .bot, timestamp := later },
           by simp [run, step, hne, hload], rfl, rfl⟩

theorem idle_history_alternates_on_calm_traces_witness :
    historyShape (run typedState twoSendTrace).1 = true :=
  idle_history_alternates_on_calm_traces.2.2.1 typedState twoSendTrace
    (by decide) (by decide)
